import Mathlib

/-!
Shallow embedding of the OpenCTI retention manager and background-task
creation/authorization code
(`opencti-platform/opencti-graphql/src/manager/retentionManager.ts`).

External collaborators (the search/index engine, file storage, the
capability model, id generation, the `moment` library) are modelled as
explicit oracle parameters or opaque data, exactly at the boundaries the
source imports them.  All control flow and data manipulation of the two
source files themselves is translated directly.
-/

namespace OpenCTI

/-! ## Constants of the source (task types, actions, scopes, entity types) -/

def TASK_TYPE_QUERY : String := "QUERY"

def TASK_TYPE_RULE : String := "RULE"

def TASK_TYPE_LIST : String := "LIST"

def ACTION_TYPE_DELETE : String := "DELETE"

def ACTION_TYPE_RESTORE : String := "RESTORE"

def ACTION_TYPE_COMPLETE_DELETE : String := "COMPLETE_DELETE"

def ACTION_TYPE_SHARE : String := "SHARE"

def ACTION_TYPE_UNSHARE : String := "UNSHARE"

/-- Capability names imported from `utils/access` and `schema/general`
(external modules); the authorization code only ever compares them for
equality through `isUserHasCapability`, so their exact string values are
irrelevant here. -/
def SETTINGS_SETLABELS : String := "SETTINGS_SETLABELS"

def SETTINGS_SET_ACCESSES : String := "SETTINGS_SET_ACCESSES"

def KNOWLEDGE_KNASKIMPORT : String := "KNOWLEDGE_KNASKIMPORT"

def KNOWLEDGE_KNUPDATE : String := "KNOWLEDGE_KNUPDATE"

def KNOWLEDGE_UPDATE : String := "KNOWLEDGE_UPDATE"

def KNOWLEDGE_DELETE : String := "KNOWLEDGE_DELETE"

def MEMBER_ACCESS_RIGHT_ADMIN : String := "admin"

def ENTITY_TYPE_VOCABULARY : String := "Vocabulary"

def ENTITY_TYPE_DELETE_OPERATION : String := "DeleteOperation"

def ENTITY_TYPE_NOTIFICATION : String := "Notification"

def ENTITY_TYPE_BACKGROUND_TASK : String := "BackgroundTask"

def ENTITY_TYPE_RETENTION_RULE : String := "RetentionRule"

def INDEX_INTERNAL_OBJECTS : String := "opencti_internal_objects"

/-- Values of the generated GraphQL enum `BackgroundTaskScope`. -/
def BackgroundTaskScope.Settings : String := "SETTINGS"

def BackgroundTaskScope.Knowledge : String := "KNOWLEDGE"

def BackgroundTaskScope.User : String := "USER"

def BackgroundTaskScope.Import : String := "IMPORT"

def entityTypeKey : String := "entity_type"

def userIdKey : String := "user_id"

def emptyString : String := ""

/-! ## Error model (`config/errors`) -/

/-- The two error constructors the task code throws: `ForbiddenAccess`
(optionally with a message) and `UnsupportedError`. -/
inductive TaskError where
  | forbiddenAccess (message : Option String)
  | unsupportedError (message : String)
deriving DecidableEq, Repr

def notKnowledgeMsg : String := "The targeted ids are not knowledge."

def notNotificationsMsg : String := "The targeted ids are not notifications."

def taskTypeUnsupportedMsg : String := "A background task should be of type query or list."

def importOnlyDeletionsMsg : String := "Background tasks of scope Import can only be deletions."

def scopeUnsupportedMsg : String := "A background task should be of scope: SETTINGS, KNOWLEDGE, USER, IMPORT."

/-! ## Filter model -/

/-- A leaf filter predicate: a key (in OpenCTI's canonical array form) and
its values. -/
structure Filter where
  key : List String
  values : List String
deriving DecidableEq, Repr

/-- A (recursive) filter group: leaf filters plus subgroups, per the
serialized filter-group format. -/
inductive FilterGroup where
  | mk (filters : List Filter) (filterGroups : List FilterGroup)

def FilterGroup.filters : FilterGroup → List Filter
  | .mk fs _ => fs

def FilterGroup.filterGroups : FilterGroup → List FilterGroup
  | .mk _ gs => gs

/-- Modelled from the spec: `isFilterGroupNotEmpty` lives in
`src/utils/filtering/filtering-utils.ts`, which is not among the given
sources.  The spec describes filters as AND/OR groups of leaf predicates;
a group is not empty when it holds at least one leaf filter or one
subgroup, and an absent group is empty. -/
def isFilterGroupNotEmpty : Option FilterGroup → Bool
  | none => false
  | some g => !g.filters.isEmpty || !g.filterGroups.isEmpty

/-! ## Principals and the task input -/

/-- The authenticated user.  `isUserHasCapability` from `utils/access` is an
external opaque predicate; it is modelled as membership in the principal's
capability set. -/
structure AuthUser where
  id : String
  internal_id : String
  capabilities : List String

def isUserHasCapability (user : AuthUser) (capability : String) : Bool :=
  user.capabilities.contains capability

/-- The background-task creation input.  `filters` holds the already parsed
form of the serialized filter string (`JSON.parse` abstracted at the
boundary; an absent filter string is `none`). -/
structure TaskInput where
  actions : List String
  filters : Option FilterGroup
  ids : List String
  scope : String

/-- A stored object as returned by the id-resolution loaders: its entity
type, its parent types and (for notifications) its owning user id. -/
structure StoredObject where
  entity_type : String
  parent_types : List String
  user_id : String
deriving DecidableEq, Repr

/-- Oracles for the external collaborators of `checkActionValidity`:
`isKnowledge` (schema/general), `getParentTypes` (schema/schemaUtils),
`internalLoadById` and `storeLoadById _ ENTITY_TYPE_NOTIFICATION`
(database/middleware-loader). -/
structure TaskEnv where
  isKnowledge : String → Bool
  getParentTypes : String → List String
  internalLoadById : String → Option StoredObject
  storeLoadByIdNotification : String → Option StoredObject

/-! ## Helpers of the authorization code -/

def isDeleteRestrictedAction (a : String) : Bool :=
  a == ACTION_TYPE_DELETE || a == ACTION_TYPE_RESTORE || a == ACTION_TYPE_COMPLETE_DELETE

/-- `areParentTypesKnowledge`: a non-null array is always truthy in JS, so
the guard reduces to flattening and checking every type. -/
def areParentTypesKnowledge (env : TaskEnv) (parentTypes : List (List String)) : Bool :=
  parentTypes.flatten.all env.isKnowledge

/-- Lines 168-171 of the task file: parse the filter string and keep its
top-level `filters` when the group is not empty. -/
def parsedFilters (input : TaskInput) : List Filter :=
  if isFilterGroupNotEmpty input.filters then (input.filters.map FilterGroup.filters).getD []
  else []

def typeFiltersOf (input : TaskInput) : List Filter :=
  (parsedFilters input).filter (fun f => f.key.contains entityTypeKey)

def typeFiltersValuesOf (input : TaskInput) : List String :=
  ((typeFiltersOf input).map Filter.values).flatten

/-- ramda `uniq` (external library): deduplication keeping the first
occurrence of each element. -/
def uniqAux (seen : List String) : List String → List String
  | [] => []
  | x :: xs => if seen.contains x then uniqAux seen xs else x :: uniqAux (x :: seen) xs

def uniq (l : List String) : List String := uniqAux [] l

/-! ## checkActionValidity -/

/-- Direct translation of `checkActionValidity`.  Thrown errors become
`Except.error`; the JS short-circuit guards (`objects.includes(undefined)`
before any dereference of a resolved object) make the total translations of
the dereferences (`Option.map`/`getD`) extensionally faithful. -/
def checkActionValidity (env : TaskEnv) (user : AuthUser) (input : TaskInput)
    (scope : String) (taskType : String) : Except TaskError Unit :=
  let actions := input.actions
  let typeFilters := typeFiltersOf input
  let typeFiltersValues := typeFiltersValuesOf input
  if scope = BackgroundTaskScope.Settings then
    -- 01. Background task of scope Settings
    if !(isUserHasCapability user SETTINGS_SETLABELS) then
      Except.error (TaskError.forbiddenAccess none)
    else Except.ok ()
  else if scope = BackgroundTaskScope.Knowledge then
    -- 02. Background task of scope Knowledge
    if !(isUserHasCapability user KNOWLEDGE_UPDATE) then
      Except.error (TaskError.forbiddenAccess none)
    else
      let askForDeletionRelatedAction := (actions.filter isDeleteRestrictedAction).length > 0
      if askForDeletionRelatedAction && !(isUserHasCapability user KNOWLEDGE_DELETE) then
        Except.error (TaskError.forbiddenAccess none)
      else if taskType = TASK_TYPE_QUERY then
        let deleteOperationTypes := typeFiltersValues.all (fun t => t == ENTITY_TYPE_DELETE_OPERATION)
        let parentTypes := typeFiltersValues.map env.getParentTypes
        let isNotKnowledge :=
          (!deleteOperationTypes && !(areParentTypesKnowledge env parentTypes))
            || typeFiltersValues.any (fun t => t == ENTITY_TYPE_VOCABULARY)
        if isNotKnowledge then
          Except.error (TaskError.forbiddenAccess (some notKnowledgeMsg))
        else Except.ok ()
      else if taskType = TASK_TYPE_LIST then
        let objects := input.ids.map env.internalLoadById
        let deleteOperationTypes :=
          objects.all (fun o => o.map StoredObject.entity_type == some ENTITY_TYPE_DELETE_OPERATION)
        let isNotKnowledge :=
          objects.any Option.isNone
            || (!deleteOperationTypes
                && !(areParentTypesKnowledge env
                      (objects.map (fun o => (o.map StoredObject.parent_types).getD []))))
            || objects.any (fun o => o.map StoredObject.entity_type == some ENTITY_TYPE_VOCABULARY)
        if isNotKnowledge then
          Except.error (TaskError.forbiddenAccess (some notKnowledgeMsg))
        else Except.ok ()
      else Except.error (TaskError.unsupportedError taskTypeUnsupportedMsg)
  else if scope = BackgroundTaskScope.User then
    -- 03. Background task of scope User (i.e. on Notifications)
    if taskType = TASK_TYPE_QUERY then
      let isNotifications :=
        match typeFilters with
        | [f] => decide (f.values.length = 1) && (f.values.headD emptyString == ENTITY_TYPE_NOTIFICATION)
        | _ => false
      if !isNotifications then
        Except.error (TaskError.forbiddenAccess (some notNotificationsMsg))
      else
        -- the source compares `f.key` with the scalar key form; with keys
        -- modelled in array form this is the singleton key
        let userFilters := (parsedFilters input).filter (fun f => f.key == [userIdKey])
        let isUserData :=
          match userFilters with
          | f :: _ => decide (f.values.length = 1) && (f.values.headD emptyString == user.id)
          | [] => false
        let isAuthorized := isUserHasCapability user SETTINGS_SET_ACCESSES || isUserData
        if !isAuthorized then Except.error (TaskError.forbiddenAccess none)
        else Except.ok ()
    else if taskType = TASK_TYPE_LIST then
      let objects := input.ids.map env.storeLoadByIdNotification
      let isNotNotifications := objects.any Option.isNone
      if isNotNotifications then
        Except.error (TaskError.forbiddenAccess (some notNotificationsMsg))
      else
        let notificationsUsers :=
          uniq (objects.map (fun o => (o.map StoredObject.user_id).getD emptyString))
        let isUserData :=
          decide (notificationsUsers.length = 1) && notificationsUsers.contains user.id
        let isAuthorized := isUserHasCapability user SETTINGS_SET_ACCESSES || isUserData
        if !isAuthorized then Except.error (TaskError.forbiddenAccess none)
        else Except.ok ()
    else Except.error (TaskError.unsupportedError taskTypeUnsupportedMsg)
  else if scope = BackgroundTaskScope.Import then
    -- 04. Background task of scope Import
    if !(isUserHasCapability user KNOWLEDGE_KNASKIMPORT) then
      Except.error (TaskError.forbiddenAccess none)
    else if actions.all (fun a => a == ACTION_TYPE_DELETE) then
      Except.error (TaskError.unsupportedError importOnlyDeletionsMsg)
    else Except.ok ()
  else Except.error (TaskError.unsupportedError scopeUnsupportedMsg)

/-! ## Retention manager data model -/

/-- Timestamps (`moment` instants) as epoch milliseconds. -/
abbrev Moment := Nat

def RETENTION_BATCH_SIZE : Nat := 100

/-- An associated work of a stored file, as enriched by the pagination. -/
structure Work where
  status : String
deriving DecidableEq, Repr

/-- An element candidate for retention deletion (the scope-dependent node
view).  `works` can be absent, and a single work entry can itself be null,
exactly as the optional chaining in the source allows. -/
structure ElementNode where
  id : String
  internal_id : String
  entity_type : Option String
  updated_at : Option Moment
  uploadStatus : Option String
  works : Option (List (Option Work))
deriving DecidableEq, Repr

structure Edge where
  node : ElementNode
deriving DecidableEq, Repr

structure PageInfo where
  endCursor : Option String
  hasNextPage : Bool
  globalCount : Nat
deriving DecidableEq, Repr

structure PaginateResult where
  edges : List Edge
  pageInfo : PageInfo
deriving DecidableEq, Repr

structure RetentionRule where
  id : String
  name : String
  max_retention : Nat
  retention_unit : Option String
  filters : Option String
  scope : String
deriving DecidableEq, Repr

/-- Oracles for the external collaborators of the retention executor:
`elPaginate` over the STIX indices (taking the rule filters, the `before`
cutoff and the batch size), `paginatedForPathWithEnrichment` (taking the
storage path, the `notModifiedSince` cutoff and the batch size), and the
two deletion paths, whose Bool tells whether the external call succeeds or
throws for the given target. -/
structure RetentionEnv where
  elPaginate : Option String → Moment → Nat → PaginateResult
  paginatedForPathWithEnrichment : String → Moment → Nat → PaginateResult
  deleteElementById : String → Option String → Bool
  deleteFile : String → Bool

def importGlobalPath : String := "import/global"

def importPendingPath : String := "import/pending"

def uploadStatusComplete : String := "complete"

def deleteFailedMsg : String := "element deletion failed"

def scopeNotExistingMsg (scope : String) : String :=
  "[Retention manager] Scope " ++ scope ++ " not existing for Retention Rule."

/-! ## Retention manager operations -/

/-- `deleteElement`: dispatch to the scope-specific deletion path; an
unknown scope throws. -/
def deleteElement (env : RetentionEnv) (scope : String) (nodeId : String)
    (nodeEntityType : Option String) : Except String Unit :=
  if scope = "knowledge" then
    if env.deleteElementById nodeId nodeEntityType then Except.ok ()
    else Except.error deleteFailedMsg
  else if scope = "file" ∨ scope = "workbench" then
    if env.deleteFile nodeId then Except.ok () else Except.error deleteFailedMsg
  else Except.error (scopeNotExistingMsg scope)

/-- The post-fetch completeness filter of `getElementsToDelete` (line 62):
keep an element only when its upload status is complete and every
associated work (each possibly null) has complete status. -/
def retentionCompleteNode (node : ElementNode) : Bool :=
  node.uploadStatus == some uploadStatusComplete
    && (node.works.getD []).all (fun work => work.map Work.status == some uploadStatusComplete)

/-- `getElementsToDelete`: fetch one batch for the rule scope (unknown
scope throws), then, for the `file` and `knowledge` scopes only, drop the
elements with ongoing works or incomplete upload status. -/
def getElementsToDelete (env : RetentionEnv) (scope : String) (before : Moment)
    (filters : Option String) : Except String PaginateResult :=
  let fetched : Except String PaginateResult :=
    if scope = "knowledge" then
      Except.ok (env.elPaginate filters before RETENTION_BATCH_SIZE)
    else if scope = "file" then
      Except.ok (env.paginatedForPathWithEnrichment importGlobalPath before RETENTION_BATCH_SIZE)
    else if scope = "workbench" then
      Except.ok (env.paginatedForPathWithEnrichment importPendingPath before RETENTION_BATCH_SIZE)
    else Except.error (scopeNotExistingMsg scope)
  match fetched with
  | Except.error e => Except.error e
  | Except.ok result =>
    if scope = "file" ∨ scope = "knowledge" then
      Except.ok { result with edges := result.edges.filter (fun e => retentionCompleteNode e.node) }
    else Except.ok result

/-- Milliseconds per `moment` subtraction unit (days default). -/
def unitMillis : String → Nat
  | "days" => 86400000
  | "hours" => 3600000
  | "minutes" => 60000
  | "seconds" => 1000
  | _ => 0

def defaultUnitDays : String := "days"

/-- `utcDate().subtract(maxNumber, unit ?? 'days')` of `executeProcessing`. -/
def beforeOf (nowTime : Moment) (rule : RetentionRule) : Moment :=
  nowTime - rule.max_retention * unitMillis (rule.retention_unit.getD defaultUnitDays)

/-- The fields patched on the rule after a batch. -/
structure RetentionPatch where
  last_execution_date : Moment
  remaining_count : Nat
  last_deleted_count : Nat
deriving DecidableEq, Repr

/-- The observable outcome of one `executeProcessing` run: the node ids
whose deletion succeeded, the node ids whose deletion threw (caught and
logged in the loop), and the metadata patch applied to the rule. -/
structure ExecOutcome where
  deletedIds : List String
  erroredIds : List String
  patch : RetentionPatch
deriving DecidableEq, Repr

/-- The deletion attempt for one element of the batch: knowledge elements
are deleted by `internal_id`, file and workbench elements by `id`. -/
def elementDeleteResult (env : RetentionEnv) (scope : String) (node : ElementNode) :
    Except String Unit :=
  deleteElement env scope (if scope = "knowledge" then node.internal_id else node.id)
    node.entity_type

/-- The per-element loop of `executeProcessing` (lines 78-88): each
element's deletion is attempted; a throw is caught (the id is logged) and
the loop continues with the next element. -/
def processLoop (env : RetentionEnv) (scope : String) : List Edge → List String × List String
  | [] => ([], [])
  | e :: rest =>
    let tail := processLoop env scope rest
    match elementDeleteResult env scope e.node with
    | Except.ok _ => (e.node.id :: tail.1, tail.2)
    | Except.error _ => (tail.1, e.node.id :: tail.2)

/-- `executeProcessing`: compute the cutoff, fetch the batch (a fetch
throw propagates), run the per-element deletion loop, then patch the rule
with `last_execution_date = now`, `remaining_count` = the paginated global
count and `last_deleted_count` = the length of the fetched batch. -/
def executeProcessing (env : RetentionEnv) (nowTime : Moment) (rule : RetentionRule) :
    Except String ExecOutcome :=
  let before := beforeOf nowTime rule
  match getElementsToDelete env rule.scope before rule.filters with
  | Except.error e => Except.error e
  | Except.ok result =>
    let remainingDeletions := result.pageInfo.globalCount
    let elements := result.edges
    let processed := processLoop env rule.scope elements
    Except.ok {
      deletedIds := processed.1
      erroredIds := processed.2
      patch := {
        last_execution_date := nowTime
        remaining_count := remainingDeletions
        last_deleted_count := elements.length } }

/-! ## Task record factory and createListTask -/

structure AuthorizedMember where
  id : String
  access_right : String
deriving DecidableEq, Repr

/-- The BackgroundTask record.  The `scope`, `authorized_members` and
`authorized_authorities` fields are only attached when a scope is supplied;
their absence is modelled as `none` / `[]`. -/
structure BackgroundTask where
  id : String
  internal_id : String
  standard_id : String
  entity_type : String
  initiator_id : String
  created_at : Moment
  completed : Bool
  type : String
  last_execution_date : Option Moment
  task_position : Option String
  task_processed_number : Nat
  task_expected_number : Nat
  errors : List String
  scope : Option String
  authorized_members : List AuthorizedMember
  authorized_authorities : List String
deriving DecidableEq, Repr

def authorizedAuthoritiesForTask (scope : String) : List String :=
  if scope = BackgroundTaskScope.Settings then [SETTINGS_SETLABELS]
  else if scope = BackgroundTaskScope.Knowledge then [KNOWLEDGE_KNUPDATE]
  else if scope = BackgroundTaskScope.User then [SETTINGS_SET_ACCESSES]
  else if scope = BackgroundTaskScope.Import then [KNOWLEDGE_KNASKIMPORT]
  else []

def authorizedMembersForTask (user : AuthUser) (scope : String) : List AuthorizedMember :=
  if scope = BackgroundTaskScope.Settings ∨ scope = BackgroundTaskScope.Knowledge
      ∨ scope = BackgroundTaskScope.User then
    [{ id := user.id, access_right := MEMBER_ACCESS_RIGHT_ADMIN }]
  else []

/-- Oracle for `generateInternalId`, `generateStandardId` and `now()`
(external id generation and clock). -/
structure IdGen where
  internalId : String
  standardId : String
  nowTime : Moment

/-- `createDefaultTask` (the `input` argument of the source is only fed to
the external `generateStandardId`, absorbed into the `IdGen` oracle). -/
def createDefaultTask (gen : IdGen) (user : AuthUser) (taskType : String)
    (taskExpectedNumber : Nat) (scope : Option String) : BackgroundTask :=
  let taskId := gen.internalId
  let base : BackgroundTask := {
    id := taskId
    internal_id := taskId
    standard_id := gen.standardId
    entity_type := ENTITY_TYPE_BACKGROUND_TASK
    initiator_id := user.internal_id
    created_at := gen.nowTime
    completed := false
    type := taskType
    last_execution_date := none
    task_position := none
    task_processed_number := 0
    task_expected_number := taskExpectedNumber
    errors := []
    scope := none
    authorized_members := []
    authorized_authorities := [] }
  match scope with
  | none => base
  | some s => { base with
      scope := some s
      authorized_members := authorizedMembersForTask user s
      authorized_authorities := authorizedAuthoritiesForTask s }

/-- The record built by `createListTask`: the default task plus the
explicit `actions` and `task_ids`. -/
structure ListTask where
  task : BackgroundTask
  actions : List String
  task_ids : List String
deriving DecidableEq, Repr

/-- The two side effects of a successful `createListTask`, in the order
they are awaited. -/
inductive SideEffect where
  | publishUserAction (message : String)
  | elIndex (index : String) (taskInternalId : String)
deriving DecidableEq, Repr

def createTaskMessage : String := "creates `background task`"

/-- `createListTask`: validate first (a denial propagates before anything
else happens), build the task record, then emit the audit event and index
the record — the side-effect list records that order. -/
def createListTask (env : TaskEnv) (gen : IdGen) (user : AuthUser) (input : TaskInput) :
    Except TaskError (ListTask × List SideEffect) :=
  match checkActionValidity env user input input.scope TASK_TYPE_LIST with
  | Except.error e => Except.error e
  | Except.ok _ =>
    let task := createDefaultTask gen user TASK_TYPE_LIST input.ids.length (some input.scope)
    let listTask : ListTask := { task := task, actions := input.actions, task_ids := input.ids }
    Except.ok (listTask,
      [SideEffect.publishUserAction createTaskMessage,
       SideEffect.elIndex INDEX_INTERNAL_OBJECTS listTask.task.internal_id])

/-! ## Observation helpers -/

/-- Whether an external call completed without throwing. -/
def exceptIsOk : Except String Unit → Bool
  | Except.ok _ => true
  | Except.error _ => false

/-- Whether an authorization check ended in a `ForbiddenAccess` denial. -/
def isForbidden : Except TaskError Unit → Bool
  | Except.error (TaskError.forbiddenAccess _) => true
  | _ => false

/-! ## Concrete fixtures used by the counterexamples and witnesses -/

def c1Node : ElementNode :=
  { id := "k1", internal_id := "k1i", entity_type := some "Report", updated_at := some 0,
    uploadStatus := some "complete", works := none }

def c1Env : RetentionEnv :=
  { elPaginate := fun _ _ _ =>
      { edges := [{ node := c1Node }],
        pageInfo := { endCursor := none, hasNextPage := false, globalCount := 5 } }
    paginatedForPathWithEnrichment := fun _ _ _ =>
      { edges := [], pageInfo := { endCursor := none, hasNextPage := false, globalCount := 0 } }
    deleteElementById := fun _ _ => false
    deleteFile := fun _ => true }

def c1Rule : RetentionRule :=
  { id := "r1", name := "rule1", max_retention := 30, retention_unit := none,
    filters := none, scope := "knowledge" }

def c1Outcome : ExecOutcome :=
  { deletedIds := [], erroredIds := ["k1"],
    patch := { last_execution_date := 0, remaining_count := 5, last_deleted_count := 1 } }

def c2Node : ElementNode :=
  { id := "wb1", internal_id := "wb1i", entity_type := some "InternalFile", updated_at := some 0,
    uploadStatus := some "progress", works := some [some { status := "wait" }] }

def c2Env : RetentionEnv :=
  { elPaginate := fun _ _ _ =>
      { edges := [], pageInfo := { endCursor := none, hasNextPage := false, globalCount := 0 } }
    paginatedForPathWithEnrichment := fun _ _ _ =>
      { edges := [{ node := c2Node }],
        pageInfo := { endCursor := none, hasNextPage := false, globalCount := 1 } }
    deleteElementById := fun _ _ => true
    deleteFile := fun _ => true }

def c2Rule : RetentionRule :=
  { id := "r2", name := "rule2", max_retention := 1, retention_unit := some "hours",
    filters := none, scope := "workbench" }

def c2Outcome : ExecOutcome :=
  { deletedIds := ["wb1"], erroredIds := [],
    patch := { last_execution_date := 7, remaining_count := 1, last_deleted_count := 1 } }

def c2wCompleteNode : ElementNode :=
  { id := "f1", internal_id := "f1i", entity_type := some "InternalFile", updated_at := some 3,
    uploadStatus := some "complete", works := some [] }

def c2wIncompleteNode : ElementNode :=
  { id := "f2", internal_id := "f2i", entity_type := some "InternalFile", updated_at := some 4,
    uploadStatus := some "progress", works := none }

def c2wEnv : RetentionEnv :=
  { elPaginate := fun _ _ _ =>
      { edges := [], pageInfo := { endCursor := none, hasNextPage := false, globalCount := 0 } }
    paginatedForPathWithEnrichment := fun _ _ _ =>
      { edges := [{ node := c2wCompleteNode }, { node := c2wIncompleteNode }],
        pageInfo := { endCursor := none, hasNextPage := false, globalCount := 2 } }
    deleteElementById := fun _ _ => true
    deleteFile := fun _ => true }

def c2wRule : RetentionRule :=
  { id := "r2w", name := "rule2w", max_retention := 2, retention_unit := some "days",
    filters := none, scope := "file" }

def c2wBatch : PaginateResult :=
  { edges := [{ node := c2wCompleteNode }],
    pageInfo := { endCursor := none, hasNextPage := false, globalCount := 2 } }

def c4NodeA : ElementNode :=
  { id := "a", internal_id := "ai", entity_type := some "InternalFile", updated_at := some 1,
    uploadStatus := some "complete", works := none }

def c4NodeB : ElementNode :=
  { id := "b", internal_id := "bi", entity_type := some "InternalFile", updated_at := some 2,
    uploadStatus := some "complete", works := some [] }

def c4Env : RetentionEnv :=
  { elPaginate := fun _ _ _ =>
      { edges := [], pageInfo := { endCursor := none, hasNextPage := false, globalCount := 0 } }
    paginatedForPathWithEnrichment := fun _ _ _ =>
      { edges := [{ node := c4NodeA }, { node := c4NodeB }],
        pageInfo := { endCursor := none, hasNextPage := false, globalCount := 2 } }
    deleteElementById := fun _ _ => true
    deleteFile := fun i => i == "b" }

def c4Rule : RetentionRule :=
  { id := "r4", name := "rule4", max_retention := 5, retention_unit := some "days",
    filters := none, scope := "file" }

def c4Batch : PaginateResult :=
  { edges := [{ node := c4NodeA }, { node := c4NodeB }],
    pageInfo := { endCursor := none, hasNextPage := false, globalCount := 2 } }

def c6Node : ElementNode :=
  { id := "k6", internal_id := "k6i", entity_type := some "Report", updated_at := some 5,
    uploadStatus := some "complete", works := none }

def c6Env : RetentionEnv :=
  { elPaginate := fun _ _ _ =>
      { edges := [{ node := c6Node }],
        pageInfo := { endCursor := none, hasNextPage := false, globalCount := 150 } }
    paginatedForPathWithEnrichment := fun _ _ _ =>
      { edges := [], pageInfo := { endCursor := none, hasNextPage := false, globalCount := 0 } }
    deleteElementById := fun _ _ => true
    deleteFile := fun _ => true }

def c6Rule : RetentionRule :=
  { id := "r6", name := "rule6", max_retention := 30, retention_unit := some "days",
    filters := none, scope := "knowledge" }

def c6Batch : PaginateResult :=
  { edges := [{ node := c6Node }],
    pageInfo := { endCursor := none, hasNextPage := false, globalCount := 150 } }

def c3Env : TaskEnv :=
  { isKnowledge := fun _ => true
    getParentTypes := fun _ => []
    internalLoadById := fun _ => none
    storeLoadByIdNotification := fun _ => none }

def c3User : AuthUser :=
  { id := "u3", internal_id := "u3i", capabilities := [KNOWLEDGE_KNASKIMPORT] }

def c3Input : TaskInput :=
  { actions := [ACTION_TYPE_DELETE, ACTION_TYPE_SHARE], filters := none,
    ids := ["file1", "file2"], scope := BackgroundTaskScope.Import }

def c3Gen : IdGen := { internalId := "task-3", standardId := "std-3", nowTime := 42 }

def c5Env : TaskEnv :=
  { isKnowledge := fun _ => true
    getParentTypes := fun _ => []
    internalLoadById := fun _ => none
    storeLoadByIdNotification := fun _ => none }

def c5User : AuthUser :=
  { id := "u5", internal_id := "u5i", capabilities := [KNOWLEDGE_KNASKIMPORT] }

def c5InputDel : TaskInput :=
  { actions := [ACTION_TYPE_DELETE], filters := none, ids := ["f1"],
    scope := BackgroundTaskScope.Import }

def c5InputMixed : TaskInput :=
  { actions := [ACTION_TYPE_DELETE, ACTION_TYPE_SHARE], filters := none, ids := ["f1"],
    scope := BackgroundTaskScope.Import }

def c7Env : TaskEnv :=
  { isKnowledge := fun _ => true
    getParentTypes := fun t => [t]
    internalLoadById := fun _ => none
    storeLoadByIdNotification := fun _ => none }

def c7User : AuthUser :=
  { id := "u7", internal_id := "u7i", capabilities := [KNOWLEDGE_UPDATE, KNOWLEDGE_DELETE] }

def c7Input : TaskInput :=
  { actions := [ACTION_TYPE_DELETE]
    filters := some (FilterGroup.mk
      [{ key := [entityTypeKey], values := [ENTITY_TYPE_VOCABULARY, "Report"] }] [])
    ids := []
    scope := BackgroundTaskScope.Knowledge }

def c8Env : TaskEnv :=
  { isKnowledge := fun _ => true
    getParentTypes := fun _ => []
    internalLoadById := fun _ => none
    storeLoadByIdNotification := fun i =>
      if i = "n1" ∨ i = "n2" then
        some { entity_type := ENTITY_TYPE_NOTIFICATION, parent_types := [], user_id := "u8" }
      else none }

def c8User : AuthUser := { id := "u8", internal_id := "u8i", capabilities := [] }

def c8Input : TaskInput :=
  { actions := [ACTION_TYPE_DELETE], filters := none, ids := ["n1", "n2"],
    scope := BackgroundTaskScope.User }

def c9Env : TaskEnv :=
  { isKnowledge := fun _ => true
    getParentTypes := fun _ => []
    internalLoadById := fun _ => none
    storeLoadByIdNotification := fun _ => none }

def c9User : AuthUser :=
  { id := "u9", internal_id := "u9i", capabilities := [KNOWLEDGE_KNASKIMPORT] }

def c9Input : TaskInput :=
  { actions := [], filters := none, ids := [], scope := BackgroundTaskScope.Import }

def c10Env : TaskEnv :=
  { isKnowledge := fun _ => false
    getParentTypes := fun _ => []
    internalLoadById := fun _ => none
    storeLoadByIdNotification := fun _ => none }

def c10User : AuthUser :=
  { id := "u10", internal_id := "u10i", capabilities := [KNOWLEDGE_UPDATE, KNOWLEDGE_DELETE] }

def c10Input : TaskInput :=
  { actions := [ACTION_TYPE_DELETE], filters := none, ids := [],
    scope := BackgroundTaskScope.Knowledge }

/-! ## General lemmas about the embedded operations -/

/-- The per-element loop partitions the batch: the ids whose deletion
succeeded and the ids whose deletion threw, both in batch order. -/
theorem processLoop_eq (env : RetentionEnv) (scope : String) (l : List Edge) :
    processLoop env scope l =
      ((l.filter (fun e => exceptIsOk (elementDeleteResult env scope e.node))).map
        (fun e => e.node.id),
       (l.filter (fun e => !(exceptIsOk (elementDeleteResult env scope e.node)))).map
        (fun e => e.node.id)) := by
  induction l with
  | nil => rfl
  | cons e rest ih =>
    simp only [processLoop, ih, List.filter_cons, List.map]
    cases h : elementDeleteResult env scope e.node <;> simp [exceptIsOk, h]

/-- Whenever the batch fetch succeeds, `executeProcessing` returns normally
with the partitioned deletion results and the metadata patch, whatever the
individual deletions do. -/
theorem executeProcessing_ok (env : RetentionEnv) (nowTime : Moment) (rule : RetentionRule)
    (r : PaginateResult)
    (h : getElementsToDelete env rule.scope (beforeOf nowTime rule) rule.filters = Except.ok r) :
    executeProcessing env nowTime rule = Except.ok {
      deletedIds := (r.edges.filter
        (fun e => exceptIsOk (elementDeleteResult env rule.scope e.node))).map (fun e => e.node.id)
      erroredIds := (r.edges.filter
        (fun e => !(exceptIsOk (elementDeleteResult env rule.scope e.node)))).map
          (fun e => e.node.id)
      patch := { last_execution_date := nowTime, remaining_count := r.pageInfo.globalCount,
                 last_deleted_count := r.edges.length } } := by
  unfold executeProcessing
  simp only [h, processLoop_eq]

theorem length_filter_add_length_filter_not {α : Type} (p : α → Bool) (l : List α) :
    (l.filter p).length + (l.filter (fun a => !(p a))).length = l.length := by
  induction l with
  | nil => rfl
  | cons a l ih => cases h : p a <;> simp [List.filter_cons, h] <;> omega

theorem length_one_and_mem_iff (l : List String) (x : String) :
    (l.length = 1 ∧ x ∈ l) ↔ l = [x] := by
  constructor
  · rintro ⟨hlen, hmem⟩
    match l, hlen with
    | [a], _ =>
      simp only [List.mem_singleton] at hmem
      simp [hmem]
  · rintro rfl
    simp

theorem ite_error_ok_iff (b : Bool) (e : TaskError) :
    ((if !b then Except.error e else Except.ok ()) = (Except.ok () : Except TaskError Unit)) ↔
      b = true := by
  cases b <;> simp

/-! ## Claim theorems -/

/-- C1, counterexample: a knowledge rule whose single batch element fails
to delete still persists `last_deleted_count = 1` while zero elements were
actually deleted, so the persisted count is not the number of batch
elements whose deletion did not throw. -/
theorem last_deleted_count_not_success_count :
    executeProcessing c1Env 0 c1Rule = Except.ok c1Outcome
      ∧ c1Outcome.patch.last_deleted_count ≠ c1Outcome.deletedIds.length :=
  ⟨by rfl, by decide⟩

/-- C1 (amended): after every retention batch the persisted
`last_deleted_count` equals the number of elements of the fetched
(post-filter) batch on which deletion was attempted — the successful
deletions plus the caught failures — not only those that did not throw. -/
theorem last_deleted_count_eq_attempted (env : RetentionEnv) (nowTime : Moment)
    (rule : RetentionRule) (o : ExecOutcome)
    (h : executeProcessing env nowTime rule = Except.ok o) :
    o.patch.last_deleted_count = o.deletedIds.length + o.erroredIds.length := by
  unfold executeProcessing at h
  cases hg : getElementsToDelete env rule.scope (beforeOf nowTime rule) rule.filters with
  | error e =>
    simp only [hg] at h
    exact Except.noConfusion h
  | ok r =>
    simp only [hg, processLoop_eq, Except.ok.injEq] at h
    subst h
    simp [length_filter_add_length_filter_not]

/-- C1 witness: the amended statement evaluated on a concrete run whose
only deletion throws. -/
theorem last_deleted_count_eq_attempted_witness :
    c1Outcome.patch.last_deleted_count =
      c1Outcome.deletedIds.length + c1Outcome.erroredIds.length :=
  last_deleted_count_eq_attempted c1Env 0 c1Rule c1Outcome (by rfl)

/-- C2, counterexample: for a rule of scope `workbench` an element with
incomplete upload status and an incomplete associated work is fetched into
the batch unfiltered and is deleted. -/
theorem workbench_deletes_incomplete_element :
    c2Node.uploadStatus ≠ some uploadStatusComplete
      ∧ retentionCompleteNode c2Node = false
      ∧ executeProcessing c2Env 7 c2Rule = Except.ok c2Outcome
      ∧ c2Node.id ∈ c2Outcome.deletedIds :=
  ⟨by decide, by decide, by rfl, by decide⟩

/-- C2 (amended): for rules of scope `knowledge` or `file` every element
of the batch produced by `getElementsToDelete` has complete upload status
and only complete associated works, and `executeProcessing` attempts
deletion only on batch elements, so such elements are never deleted in
those two scopes; the `workbench` scope performs no such filtering. -/
theorem retention_batch_all_complete (env : RetentionEnv) (nowTime : Moment)
    (rule : RetentionRule) (r : PaginateResult)
    (hscope : rule.scope = "knowledge" ∨ rule.scope = "file")
    (h : getElementsToDelete env rule.scope (beforeOf nowTime rule) rule.filters = Except.ok r) :
    r.edges.all (fun e => retentionCompleteNode e.node) = true
      ∧ (executeProcessing env nowTime rule).map ExecOutcome.deletedIds =
          Except.ok ((r.edges.filter
            (fun e => exceptIsOk (elementDeleteResult env rule.scope e.node))).map
              (fun e => e.node.id)) := by
  refine ⟨?_, ?_⟩
  · rcases hscope with hs | hs <;>
    · rw [hs] at h
      unfold getElementsToDelete at h
      simp only [reduceIte, String.reduceEq, or_true, true_or, or_false, false_or,
        if_true, if_false, Except.ok.injEq] at h
      subst h
      simp only [List.all_eq_true]
      intro e he
      exact (List.mem_filter.mp he).2
  · rw [executeProcessing_ok env nowTime rule r h]
    rfl

/-- C2 witness: the amended statement evaluated on a concrete `file` rule
whose fetch returns one complete and one incomplete element. -/
theorem retention_batch_all_complete_witness :
    c2wBatch.edges.all (fun e => retentionCompleteNode e.node) = true
      ∧ (executeProcessing c2wEnv 9 c2wRule).map ExecOutcome.deletedIds =
          Except.ok ((c2wBatch.edges.filter
            (fun e => exceptIsOk (elementDeleteResult c2wEnv c2wRule.scope e.node))).map
              (fun e => e.node.id)) :=
  retention_batch_all_complete c2wEnv 9 c2wRule c2wBatch (Or.inr rfl) (by rfl)

/-- C3: `createListTask` validates authorization first; on a denial it
returns that very error and produces neither the audit event nor the index
write (side effects exist only in the success payload), and on success it
returns the built record together with both side effects, the audit
emission ordered before the persistence to the internal-objects index. -/
theorem createListTask_validates_then_acts (env : TaskEnv) (gen : IdGen) (user : AuthUser)
    (input : TaskInput) :
    (∀ e, checkActionValidity env user input input.scope TASK_TYPE_LIST = Except.error e →
        createListTask env gen user input = Except.error e)
    ∧ (checkActionValidity env user input input.scope TASK_TYPE_LIST = Except.ok () →
        createListTask env gen user input = Except.ok
          ({ task := createDefaultTask gen user TASK_TYPE_LIST input.ids.length (some input.scope),
             actions := input.actions, task_ids := input.ids },
           [SideEffect.publishUserAction createTaskMessage,
            SideEffect.elIndex INDEX_INTERNAL_OBJECTS gen.internalId])) := by
  constructor
  · intro e he
    unfold createListTask
    rw [he]
  · intro hok
    unfold createListTask
    rw [hok]
    rfl

/-- C3 witness: a concrete successful creation, with the audit event
before the index write. -/
theorem createListTask_validates_then_acts_witness :
    createListTask c3Env c3Gen c3User c3Input = Except.ok
      ({ task := createDefaultTask c3Gen c3User TASK_TYPE_LIST c3Input.ids.length
            (some c3Input.scope),
         actions := c3Input.actions, task_ids := c3Input.ids },
       [SideEffect.publishUserAction createTaskMessage,
        SideEffect.elIndex INDEX_INTERNAL_OBJECTS c3Gen.internalId]) :=
  (createListTask_validates_then_acts c3Env c3Gen c3User c3Input).2 (by rfl)

/-- C4: if deleting one batch element throws, the run still returns
normally with the rule patch applied, the failing element id is recorded
by the catch branch, and every element whose deletion succeeds — before or
after the failure — is still deleted. -/
theorem element_failure_does_not_abort (env : RetentionEnv) (nowTime : Moment)
    (rule : RetentionRule) (r : PaginateResult) (e x : Edge)
    (h : getElementsToDelete env rule.scope (beforeOf nowTime rule) rule.filters = Except.ok r)
    (he : e ∈ r.edges)
    (hfail : exceptIsOk (elementDeleteResult env rule.scope e.node) = false)
    (hx : x ∈ r.edges)
    (hxok : exceptIsOk (elementDeleteResult env rule.scope x.node) = true) :
    executeProcessing env nowTime rule = Except.ok {
        deletedIds := (r.edges.filter
          (fun y => exceptIsOk (elementDeleteResult env rule.scope y.node))).map
            (fun y => y.node.id)
        erroredIds := (r.edges.filter
          (fun y => !(exceptIsOk (elementDeleteResult env rule.scope y.node)))).map
            (fun y => y.node.id)
        patch := { last_execution_date := nowTime, remaining_count := r.pageInfo.globalCount,
                   last_deleted_count := r.edges.length } }
      ∧ e.node.id ∈ (r.edges.filter
          (fun y => !(exceptIsOk (elementDeleteResult env rule.scope y.node)))).map
            (fun y => y.node.id)
      ∧ x.node.id ∈ (r.edges.filter
          (fun y => exceptIsOk (elementDeleteResult env rule.scope y.node))).map
            (fun y => y.node.id) := by
  refine ⟨executeProcessing_ok env nowTime rule r h, ?_, ?_⟩
  · exact List.mem_map_of_mem _ (List.mem_filter.mpr ⟨he, by simp [hfail]⟩)
  · exact List.mem_map_of_mem _ (List.mem_filter.mpr ⟨hx, hxok⟩)

/-- C4 witness: a two-element file batch whose first deletion throws and
whose second succeeds. -/
theorem element_failure_does_not_abort_witness :
    executeProcessing c4Env 11 c4Rule = Except.ok {
        deletedIds := (c4Batch.edges.filter
          (fun y => exceptIsOk (elementDeleteResult c4Env c4Rule.scope y.node))).map
            (fun y => y.node.id)
        erroredIds := (c4Batch.edges.filter
          (fun y => !(exceptIsOk (elementDeleteResult c4Env c4Rule.scope y.node)))).map
            (fun y => y.node.id)
        patch := { last_execution_date := 11, remaining_count := c4Batch.pageInfo.globalCount,
                   last_deleted_count := c4Batch.edges.length } }
      ∧ c4NodeA.id ∈ (c4Batch.edges.filter
          (fun y => !(exceptIsOk (elementDeleteResult c4Env c4Rule.scope y.node)))).map
            (fun y => y.node.id)
      ∧ c4NodeB.id ∈ (c4Batch.edges.filter
          (fun y => exceptIsOk (elementDeleteResult c4Env c4Rule.scope y.node))).map
            (fun y => y.node.id) :=
  element_failure_does_not_abort c4Env 11 c4Rule c4Batch { node := c4NodeA } { node := c4NodeB }
    (by rfl) (by decide) (by rfl) (by decide) (by rfl)

/-- C5: for scope Import with the import capability, a request whose
actions all equal DELETE is denied with the unsupported-operation error,
and a request containing at least one non-delete action is allowed. -/
theorem import_scope_rejects_pure_deletions (env : TaskEnv) (user : AuthUser) (input : TaskInput)
    (taskType : String)
    (hcap : isUserHasCapability user KNOWLEDGE_KNASKIMPORT = true) :
    (input.actions.all (fun a => a == ACTION_TYPE_DELETE) = true →
        checkActionValidity env user input BackgroundTaskScope.Import taskType =
          Except.error (TaskError.unsupportedError importOnlyDeletionsMsg))
    ∧ ((∃ a ∈ input.actions, a ≠ ACTION_TYPE_DELETE) →
        checkActionValidity env user input BackgroundTaskScope.Import taskType =
          Except.ok ()) := by
  constructor
  · intro hall
    unfold checkActionValidity
    simp [BackgroundTaskScope.Import, BackgroundTaskScope.Settings, BackgroundTaskScope.Knowledge,
      BackgroundTaskScope.User, hcap, hall]
  · intro hex
    have hall : input.actions.all (fun a => a == ACTION_TYPE_DELETE) = false := by
      rcases hex with ⟨a, ha, hne⟩
      simp only [List.all_eq_false]
      exact ⟨a, ha, by simpa using hne⟩
    unfold checkActionValidity
    simp [BackgroundTaskScope.Import, BackgroundTaskScope.Settings, BackgroundTaskScope.Knowledge,
      BackgroundTaskScope.User, hcap, hall]

/-- C5 witness: `{DELETE}` is denied and `{DELETE, SHARE}` is allowed for
a concrete principal holding the import capability. -/
theorem import_scope_rejects_pure_deletions_witness :
    checkActionValidity c5Env c5User c5InputDel BackgroundTaskScope.Import TASK_TYPE_LIST =
        Except.error (TaskError.unsupportedError importOnlyDeletionsMsg)
      ∧ checkActionValidity c5Env c5User c5InputMixed BackgroundTaskScope.Import TASK_TYPE_LIST =
        Except.ok () :=
  ⟨(import_scope_rejects_pure_deletions c5Env c5User c5InputDel TASK_TYPE_LIST (by rfl)).1
      (by rfl),
   (import_scope_rejects_pure_deletions c5Env c5User c5InputMixed TASK_TYPE_LIST (by rfl)).2
      ⟨ACTION_TYPE_SHARE, by decide, by decide⟩⟩

/-- C6: for every rule execution whose fetch succeeds, the persisted
`remaining_count` equals the paginated result's global count, the total
number of matching elements before this batch's deletions. -/
theorem remaining_count_eq_global_count (env : RetentionEnv) (nowTime : Moment)
    (rule : RetentionRule) (r : PaginateResult)
    (h : getElementsToDelete env rule.scope (beforeOf nowTime rule) rule.filters = Except.ok r) :
    (executeProcessing env nowTime rule).map (fun o => o.patch.remaining_count) =
      Except.ok r.pageInfo.globalCount := by
  rw [executeProcessing_ok env nowTime rule r h]
  rfl

/-- C6 witness: a run over a one-element batch drawn from 150 matching
elements persists `remaining_count = 150`. -/
theorem remaining_count_eq_global_count_witness :
    (executeProcessing c6Env 13 c6Rule).map (fun o => o.patch.remaining_count) =
      Except.ok c6Batch.pageInfo.globalCount :=
  remaining_count_eq_global_count c6Env 13 c6Rule c6Batch (by rfl)

/-- C7: for scope Knowledge with taskType QUERY, whenever the vocabulary
type appears among the targeted entity-type filter values the check ends
in a forbidden denial, whatever the principal's capabilities and whatever
the ancestry or delete-operation status of the other targeted types. -/
theorem vocabulary_target_always_denied (env : TaskEnv) (user : AuthUser) (input : TaskInput)
    (hvoc : ENTITY_TYPE_VOCABULARY ∈ typeFiltersValuesOf input) :
    isForbidden
      (checkActionValidity env user input BackgroundTaskScope.Knowledge TASK_TYPE_QUERY) =
      true := by
  have hany : (typeFiltersValuesOf input).any (fun t => t == ENTITY_TYPE_VOCABULARY) = true := by
    simp only [List.any_eq_true]
    exact ⟨ENTITY_TYPE_VOCABULARY, hvoc, by simp⟩
  unfold checkActionValidity
  by_cases h3 : 0 < (input.actions.filter isDeleteRestrictedAction).length <;>
    cases h1 : isUserHasCapability user KNOWLEDGE_UPDATE <;>
      cases h2 : isUserHasCapability user KNOWLEDGE_DELETE <;>
        simp [BackgroundTaskScope.Knowledge, BackgroundTaskScope.Settings, TASK_TYPE_QUERY,
          h1, h2, h3, hany, isForbidden]

/-- C7 witness: a delete-capable principal targeting `Vocabulary` together
with a knowledge type is still denied. -/
theorem vocabulary_target_always_denied_witness :
    isForbidden
      (checkActionValidity c7Env c7User c7Input BackgroundTaskScope.Knowledge TASK_TYPE_QUERY) =
      true :=
  vocabulary_target_always_denied c7Env c7User c7Input (by decide)

/-- C8: for scope User with taskType LIST, the check denies whenever some
id fails to resolve as a notification, and otherwise allows exactly when
the owning users of the resolved notifications are the single principal,
or the principal holds the global manage-accesses capability. -/
theorem user_list_scope_ownership_gate (env : TaskEnv) (user : AuthUser) (input : TaskInput) :
    ((input.ids.map env.storeLoadByIdNotification).any Option.isNone = true →
        checkActionValidity env user input BackgroundTaskScope.User TASK_TYPE_LIST =
          Except.error (TaskError.forbiddenAccess (some notNotificationsMsg)))
    ∧ ((input.ids.map env.storeLoadByIdNotification).any Option.isNone = false →
        (checkActionValidity env user input BackgroundTaskScope.User TASK_TYPE_LIST =
            Except.ok () ↔
          (uniq ((input.ids.map env.storeLoadByIdNotification).map
              (fun o => (o.map StoredObject.user_id).getD emptyString)) = [user.id]
            ∨ isUserHasCapability user SETTINGS_SET_ACCESSES = true))) := by
  constructor
  · intro hnone
    unfold checkActionValidity
    simp [BackgroundTaskScope.User, BackgroundTaskScope.Settings, BackgroundTaskScope.Knowledge,
      TASK_TYPE_QUERY, TASK_TYPE_LIST, hnone]
  · intro hnone
    unfold checkActionValidity
    cases hcap : isUserHasCapability user SETTINGS_SET_ACCESSES <;>
      simp [BackgroundTaskScope.User, BackgroundTaskScope.Settings, BackgroundTaskScope.Knowledge,
        TASK_TYPE_QUERY, TASK_TYPE_LIST, hnone, hcap, ite_error_ok_iff, length_one_and_mem_iff]

/-- C8 witness: a principal without the global capability listing two of
their own notifications is allowed. -/
theorem user_list_scope_ownership_gate_witness :
    checkActionValidity c8Env c8User c8Input BackgroundTaskScope.User TASK_TYPE_LIST =
      Except.ok () :=
  ((user_list_scope_ownership_gate c8Env c8User c8Input).2 (by rfl)).mpr (Or.inl (by rfl))

/-- C9: for scope Import with the import capability, an empty action list
is denied with the unsupported-operation error, because the
everything-is-DELETE check is vacuously true on an empty list. -/
theorem import_scope_denies_empty_actions (env : TaskEnv) (user : AuthUser) (input : TaskInput)
    (taskType : String)
    (hcap : isUserHasCapability user KNOWLEDGE_KNASKIMPORT = true)
    (hempty : input.actions = []) :
    checkActionValidity env user input BackgroundTaskScope.Import taskType =
      Except.error (TaskError.unsupportedError importOnlyDeletionsMsg) := by
  unfold checkActionValidity
  simp [BackgroundTaskScope.Import, BackgroundTaskScope.Settings, BackgroundTaskScope.Knowledge,
    BackgroundTaskScope.User, hcap, hempty]

/-- C9 witness: the empty action list evaluated concretely. -/
theorem import_scope_denies_empty_actions_witness :
    checkActionValidity c9Env c9User c9Input BackgroundTaskScope.Import TASK_TYPE_QUERY =
      Except.error (TaskError.unsupportedError importOnlyDeletionsMsg) :=
  import_scope_denies_empty_actions c9Env c9User c9Input TASK_TYPE_QUERY (by rfl) (by rfl)

/-- C10: for scope Knowledge with the required capabilities, a QUERY whose
filters carry no entity-type values and a LIST with an empty id list are
both allowed: the target-type checks are vacuously satisfied. -/
theorem knowledge_empty_targets_allowed (env : TaskEnv) (user : AuthUser) (input : TaskInput)
    (hupd : isUserHasCapability user KNOWLEDGE_UPDATE = true)
    (hdel : (input.actions.filter isDeleteRestrictedAction).length > 0 →
        isUserHasCapability user KNOWLEDGE_DELETE = true) :
    (typeFiltersValuesOf input = [] →
        checkActionValidity env user input BackgroundTaskScope.Knowledge TASK_TYPE_QUERY =
          Except.ok ())
    ∧ (input.ids = [] →
        checkActionValidity env user input BackgroundTaskScope.Knowledge TASK_TYPE_LIST =
          Except.ok ()) := by
  by_cases hd : (input.actions.filter isDeleteRestrictedAction).length > 0
  · have h2 := hdel hd
    constructor <;> intro hemp <;>
      · unfold checkActionValidity
        simp [BackgroundTaskScope.Knowledge, BackgroundTaskScope.Settings, TASK_TYPE_QUERY,
          TASK_TYPE_LIST, hupd, h2, hd, hemp]
  · constructor <;> intro hemp <;>
    · unfold checkActionValidity
      simp [BackgroundTaskScope.Knowledge, BackgroundTaskScope.Settings, TASK_TYPE_QUERY,
        TASK_TYPE_LIST, hupd, hd, hemp]

/-- C10 witness: a delete-capable principal with no entity-type filter and
no ids is allowed in both task types. -/
theorem knowledge_empty_targets_allowed_witness :
    checkActionValidity c10Env c10User c10Input BackgroundTaskScope.Knowledge TASK_TYPE_QUERY =
        Except.ok ()
      ∧ checkActionValidity c10Env c10User c10Input BackgroundTaskScope.Knowledge TASK_TYPE_LIST =
        Except.ok () :=
  ⟨(knowledge_empty_targets_allowed c10Env c10User c10Input (by rfl) (fun _ => by rfl)).1 (by rfl),
   (knowledge_empty_targets_allowed c10Env c10User c10Input (by rfl) (fun _ => by rfl)).2
     (by rfl)⟩

end OpenCTI
